import Mathlib

/-!
Verification of the `jakubfiala/blog` static-site repository.

The repository is an Astro blog.  The source files embedded here are:
  * `src/pages/index.astro`   — the index page: sorts the blog collection by
    publish date descending (JavaScript stable `Array.prototype.sort` with
    comparator `(a, b) => b.data.pubDate.valueOf() - a.data.pubDate.valueOf()`)
    and renders one `<li>` per post.
  * `src/layouts/BlogPost.astro` — the post layout: head block (`BaseHead`
    called with title and description only), header, date block with a
    conditional "Last updated on" notice, title, body slot, footer.
  * `astro.config.mjs` — the declarative build configuration.
Shared components (`BaseHead`, `Header`, `Footer`, `FormattedDate`), the
site constants and the content-collection schema are not part of the given
sources; they are modelled from the specification where a claim needs them.
-/

namespace Blog

/-- A calendar date as written in the front-matter (`pubDate: '2025-01-02'`). -/
structure Date where
  year : Nat
  month : Nat
  day : Nat
deriving DecidableEq

/-- JavaScript `Date.prototype.valueOf()` returns milliseconds since the epoch,
which is strictly monotone in the calendar date.  We use the strictly monotone
integer encoding `year*10000 + month*100 + day` (months ≤ 12 < 100,
days ≤ 31 < 100), which preserves the order of dates and hence the sign of the
differences the sort comparator computes. -/
def Date.valueOf (d : Date) : Int :=
  (d.year * 10000 + d.month * 100 + d.day : Nat)

/-- The front-matter data of one content entry, `CollectionEntry<'blog'>['data']`:
required `title`, `description`, `pubDate`; optional `updatedDate`, `heroImage`. -/
structure PostData where
  title : String
  description : String
  pubDate : Date
  updatedDate : Option Date
  heroImage : Option String
deriving DecidableEq

/-- A content entry of the `blog` collection: slug (derived from the storage
location), front-matter data, and the rendered markdown body, which the layout
treats as an opaque block. -/
structure Post where
  slug : String
  data : PostData
  body : String
deriving DecidableEq

/-- The comparator of `src/pages/index.astro` line 10:
`(a, b) => b.data.pubDate.valueOf() - a.data.pubDate.valueOf()`. -/
def jsCompare (a b : Post) : Int :=
  b.data.pubDate.valueOf - a.data.pubDate.valueOf

/-- JavaScript `Array.prototype.sort` keeps `a` before `b` whenever the
comparator result is non-positive; as a boolean "less or equal" this is
`jsCompare a b ≤ 0`. -/
def postLE (a b : Post) : Bool :=
  jsCompare a b ≤ 0

/-- The `posts` computation of `src/pages/index.astro` lines 9–11:
`(await getCollection('blog')).sort(comparator)`.  Since ES2019,
`Array.prototype.sort` is required to be stable, so it is modelled by the
stable `List.mergeSort` with the order induced by the comparator. -/
def sortPosts (posts : List Post) : List Post :=
  posts.mergeSort postLE

theorem postLE_trans (a b c : Post) : postLE a b → postLE b c → postLE a c := by
  simp only [postLE, jsCompare, decide_eq_true_eq]
  omega

theorem postLE_total (a b : Post) : postLE a b || postLE b a := by
  simp only [postLE, jsCompare, Bool.or_eq_true, decide_eq_true_eq]
  omega

/-- A node of the emitted HTML document: either a text run or an element with
a tag, an attribute list and child nodes. -/
inductive Html where
  | text : String → Html
  | elem : String → List (String × String) → List Html → Html

mutual

/-- Whether the document contains an element carrying the attribute
`key="val"` (used to locate, e.g., the `class="last-updated-on"` notice). -/
def hasAttr (key val : String) : Html → Bool
  | Html.text _ => false
  | Html.elem _ attrs children =>
      attrs.contains (key, val) || hasAttrAny key val children

/-- List version of `hasAttr`. -/
def hasAttrAny (key val : String) : List Html → Bool
  | [] => false
  | h :: t => hasAttr key val h || hasAttrAny key val t

end

mutual

/-- Whether the document contains an element with an attribute named `key`
(with any value). -/
def hasAttrKey (key : String) : Html → Bool
  | Html.text _ => false
  | Html.elem _ attrs children =>
      attrs.any (fun kv => kv.fst == key) || hasAttrKeyAny key children

/-- List version of `hasAttrKey`. -/
def hasAttrKeyAny (key : String) : List Html → Bool
  | [] => false
  | h :: t => hasAttrKey key h || hasAttrKeyAny key t

end

/-- Serialisation of one attribute list. -/
def renderAttrs (attrs : List (String × String)) : String :=
  attrs.foldl (fun acc kv => acc ++ " " ++ kv.fst ++ "=\"" ++ kv.snd ++ "\"") ""

mutual

/-- Serialise a document node to the bytes of the emitted static file. -/
def Html.render : Html → String
  | Html.text s => s
  | Html.elem tag attrs children =>
      "<" ++ tag ++ renderAttrs attrs ++ ">" ++ renderChildren children ++
        "</" ++ tag ++ ">"

/-- Serialise a list of sibling nodes. -/
def renderChildren : List Html → String
  | [] => ""
  | h :: t => Html.render h ++ renderChildren t

end

/-- The `<head>` element of a page: the first child of the document root. -/
def pageHead : Html → Option Html
  | Html.elem _ _ (h :: _) => some h
  | _ => none

/-- Modelled from the spec: the shared head-metadata component
(`src/components/BaseHead.astro`, not among the given sources).  Per the spec,
the head metadata block carries the given title and description, and includes
an image reference exactly when one is passed to it. -/
def BaseHead (title description : String) (image : Option String) : Html :=
  Html.elem "head-meta"
    ([("title", title), ("description", description)] ++
      (match image with
       | some img => [("image", img)]
       | none => []))
    []

/-- Modelled from the spec: the shared page header component
(`src/components/Header.astro`, not among the given sources). -/
def Header : Html := Html.elem "header" [] []

/-- Modelled from the spec: the shared page footer component
(`src/components/Footer.astro`, not among the given sources). -/
def Footer : Html := Html.elem "footer" [] []

/-- Modelled from the spec: the date-formatting component
(`src/components/FormattedDate.astro`, not among the given sources); it
renders a date as text inside a time element. -/
def FormattedDate (d : Date) : Html :=
  Html.elem "time" []
    [Html.text (toString d.year ++ "-" ++ toString d.month ++ "-" ++
      toString d.day)]

/-- Modelled from the spec: the site-wide title constant (`src/consts.ts`, not
among the given sources); its concrete value is irrelevant to every claim. -/
def SITE_TITLE : String := "SITE_TITLE"

/-- Modelled from the spec: the site-wide description constant
(`src/consts.ts`, not among the given sources). -/
def SITE_DESCRIPTION : String := "SITE_DESCRIPTION"

/-- The inline `<style>` block of `src/layouts/BlogPost.astro` (lines 15–53).
Its CSS text is carried as an opaque text node; no claim concerns the CSS. -/
def blogPostStyle : Html :=
  Html.elem "style" [] [Html.text "BlogPost.astro inline CSS"]

/-- The page emitted by `src/layouts/BlogPost.astro` for front-matter `p` and
rendered body `body`.  Faithful to the template: `BaseHead` is called with
`title` and `description` only (line 15 reads
`<BaseHead title={title} description={description} />` — the destructured
`heroImage` is never passed on); the date block renders the
`class="last-updated-on"` notice exactly when `updatedDate` is present
(lines 63–72). -/
def renderBlogPost (p : PostData) (body : String) : Html :=
  Html.elem "html" [("lang", "en")]
    [Html.elem "head" []
      [BaseHead p.title p.description none, blogPostStyle],
     Html.elem "body" []
      [Header,
       Html.elem "main" []
        [Html.elem "article" []
          [Html.elem "div" [("class", "prose")]
            [Html.elem "div" [("class", "title")]
              [Html.elem "div" [("class", "date")]
                (FormattedDate p.pubDate ::
                  (match p.updatedDate with
                   | some d =>
                     [Html.elem "div" [("class", "last-updated-on")]
                       [Html.text "Last updated on ", FormattedDate d]]
                   | none => [])),
               Html.elem "h1" [] [Html.text p.title]],
             Html.text body]],
         Html.elem "div" [("class", "hexagram")] [Html.text "䷷"]],
       Footer]]

/-- One `<li>` of the index listing (`src/pages/index.astro` lines 25–35):
a link to `/blog/` followed by the slug, containing the formatted publish
date, the title and the description. -/
def renderPostItem (post : Post) : Html :=
  Html.elem "li" []
    [Html.elem "a" [("class", "post__link"), ("href", "/blog/" ++ post.slug)]
      [Html.elem "span" [("class", "post__date")]
        [FormattedDate post.data.pubDate],
       Html.elem "div" []
        [Html.elem "h2" [("class", "post__title")] [Html.text post.data.title],
         Html.elem "p" [("class", "post__description")]
           [Html.text post.data.description]]]]

/-- The children of the `<ul class="posts">` element: the sorted collection
mapped through the item template (`src/pages/index.astro` lines 24–36). -/
def indexListing (collection : List Post) : List Html :=
  (sortPosts collection).map renderPostItem

/-- The page emitted by `src/pages/index.astro` for the given collection. -/
def renderIndex (collection : List Post) : Html :=
  Html.elem "html" [("lang", "en")]
    [Html.elem "head" [] [BaseHead SITE_TITLE SITE_DESCRIPTION none],
     Html.elem "body" []
      [Header,
       Html.elem "main" []
        [Html.elem "section" []
          [Html.elem "ul" [("class", "posts")] (indexListing collection)]],
       Footer]]

/-- Raw front-matter of a content file before validation: every field may be
absent. -/
structure FrontMatter where
  title : Option String
  description : Option String
  pubDate : Option Date
  updatedDate : Option Date
  heroImage : Option String
deriving DecidableEq

/-- Modelled from the spec: the build-time content-collection schema
validation (the content config declaring the `blog` collection schema is not
among the given sources).  Per the spec, `title`, `description` and `pubDate`
are required, `updatedDate` and `heroImage` optional; an entry missing a
required field fails validation with a build-time error that halts generation
of that page. -/
def validateEntry (fm : FrontMatter) : Except String PostData :=
  match fm.title, fm.description, fm.pubDate with
  | some t, some d, some p =>
      Except.ok ⟨t, d, p, fm.updatedDate, fm.heroImage⟩
  | none, _, _ => Except.error "missing required field: title"
  | _, none, _ => Except.error "missing required field: description"
  | _, _, none => Except.error "missing required field: pubDate"

/-- A build extension enabled in `astro.config.mjs`. -/
inductive Integration where
  | mdx
  | sitemap
deriving DecidableEq

/-- The declarative build configuration object. -/
structure AstroConfig where
  site : String
  base : String
  integrations : List Integration
deriving DecidableEq

/-- The configuration exported by `astro.config.mjs` lines 7–11. -/
def config : AstroConfig :=
  ⟨"https://fiala.space/blog", "blog", [Integration.mdx, Integration.sitemap]⟩

/-- The entry `src/content/blog/finding-gustavo-1.md`: front-matter lines 1–5
(`pubDate: '2025-01-02'`, no `updatedDate`, no `heroImage`); the markdown body
is carried as an opaque string (abridged — no claim depends on its text). -/
def findingGustavo1 : Post :=
  ⟨"finding-gustavo-1",
   ⟨"Street View as a game engine: Localised sounds",
    "Making of \"Finding Gustavo\" - Chapter 1",
    ⟨2025, 1, 2⟩, none, none⟩,
   "This is the first post in the Making of series"⟩

/-- The second content entry (given without its file name; its body links to
`/blog/finding-gustavo-1` and calls itself the second post, so its slug is
`finding-gustavo-2`): front-matter lines 1–5 (`pubDate: '2025-01-08'`, no
`updatedDate`, no `heroImage`); body abridged. -/
def findingGustavo2 : Post :=
  ⟨"finding-gustavo-2",
   ⟨"Street View as a game engine: Adding 3D objects",
    "Making of \"Finding Gustavo\" - Chapter 2",
    ⟨2025, 1, 8⟩, none, none⟩,
   "This is the second post in the Making of series"⟩

/-- A front-matter record with a hero image reference, used to examine the
head metadata the layout emits for it. -/
def heroPost : PostData :=
  ⟨"Hero title", "Hero description", ⟨2025, 1, 2⟩, none, some "hero.webp"⟩

/-- A front-matter record agreeing with `heroPost` on title and description
but differing in publish date, updated date and hero image. -/
def headPostB : PostData :=
  ⟨"Hero title", "Hero description", ⟨2025, 3, 4⟩, some ⟨2025, 3, 5⟩, none⟩

/-- A concrete post used to exhibit a publish-date tie. -/
def tiedPostA : Post :=
  ⟨"tied-a", ⟨"Tied post A", "first of two with one date", ⟨2025, 1, 2⟩,
    none, none⟩, "body A"⟩

/-- A second concrete post with the same publish date as `tiedPostA`. -/
def tiedPostB : Post :=
  ⟨"tied-b", ⟨"Tied post B", "second of two with one date", ⟨2025, 1, 2⟩,
    none, none⟩, "body B"⟩

/-- A concrete front-matter record with the required title missing. -/
def untitledFrontMatter : FrontMatter :=
  ⟨none, some "a description", some ⟨2025, 1, 2⟩, none, none⟩

/-- C1: for every set of content entries, the index listing produced by the
index page is sorted by publish date in descending order: each listed entry's
publish date is greater than or equal to the publish date of every entry
listed after it. -/
theorem index_sorted_by_pubDate_desc (l : List Post) :
    (sortPosts l).Pairwise
      (fun a b => b.data.pubDate.valueOf ≤ a.data.pubDate.valueOf) := by
  have h := List.sorted_mergeSort postLE_trans postLE_total l
  refine h.imp ?_
  intro a b hab
  simp only [postLE, jsCompare, decide_eq_true_eq] at hab
  omega

/-- C2: the sort of the index page is stable: whenever two entries with equal
publish dates occur in the collection in a given order (the two-element
sublist `[a, b]`), the index listing keeps them in that order. -/
theorem index_sort_stable (l : List Post) (a b : Post)
    (hdate : a.data.pubDate = b.data.pubDate)
    (hsub : [a, b].Sublist l) : [a, b].Sublist (sortPosts l) := by
  apply List.sublist_mergeSort postLE_trans postLE_total ?_ hsub
  have hab : postLE a b := by
    simp only [postLE, jsCompare, hdate, decide_eq_true_eq]
    omega
  simp [List.pairwise_cons, hab]

/-- Witness for C2 at a concrete collection with a publish-date tie. -/
theorem index_sort_stable_witness :
    tiedPostA.data.pubDate = tiedPostB.data.pubDate ∧
    [tiedPostA, tiedPostB].Sublist [findingGustavo2, tiedPostA, tiedPostB] ∧
    [tiedPostA, tiedPostB].Sublist
      (sortPosts [findingGustavo2, tiedPostA, tiedPostB]) :=
  ⟨rfl, by decide,
   index_sort_stable [findingGustavo2, tiedPostA, tiedPostB] tiedPostA
     tiedPostB rfl (by decide)⟩

/-- C3: the rendered post page contains the "Last updated on" notice (the
element of class `last-updated-on`) exactly when the entry has an updated
date. -/
theorem lastUpdated_notice_iff (p : PostData) (body : String) :
    hasAttr "class" "last-updated-on" (renderBlogPost p body) =
      p.updatedDate.isSome := by
  cases h : p.updatedDate <;>
    simp [renderBlogPost, h, hasAttr, hasAttrAny, BaseHead, Header, Footer,
      FormattedDate, blogPostStyle]

/-- Counterexample for C4: `heroPost` carries a hero image reference, yet no
element of its rendered post page — in particular not the head metadata
block — carries any `image` attribute. -/
theorem heroImage_omitted_counterexample :
    heroPost.heroImage = some "hero.webp" ∧
    hasAttrKey "image" (renderBlogPost heroPost "a body") = false := by
  refine ⟨rfl, ?_⟩
  simp [renderBlogPost, heroPost, hasAttrKey, hasAttrKeyAny, BaseHead, Header,
    Footer, FormattedDate, blogPostStyle]

/-- C4 as amended: the layout passes only title and description to the head
metadata component, so the head metadata of a rendered post page never
includes an image reference, whether or not the entry has a hero image. -/
theorem head_metadata_never_includes_image (p : PostData) (body : String) :
    hasAttrKey "image" (renderBlogPost p body) = false := by
  cases h : p.updatedDate <;>
    simp [renderBlogPost, h, hasAttrKey, hasAttrKeyAny, BaseHead, Header,
      Footer, FormattedDate, blogPostStyle]

/-- C5: a content entry whose front-matter misses a required field (title,
description or publish date) fails build-time validation with an error,
rather than producing a page with blank fields. -/
theorem missing_required_field_fails (fm : FrontMatter)
    (h : fm.title = none ∨ fm.description = none ∨ fm.pubDate = none) :
    ∃ msg, validateEntry fm = Except.error msg := by
  obtain ⟨t, d, p, u, i⟩ := fm
  cases t <;> cases d <;> cases p <;> simp_all [validateEntry]

/-- Witness for C5 at a concrete front-matter record missing its title. -/
theorem missing_required_field_fails_witness :
    (untitledFrontMatter.title = none ∨
      untitledFrontMatter.description = none ∨
      untitledFrontMatter.pubDate = none) ∧
    ∃ msg, validateEntry untitledFrontMatter = Except.error msg :=
  ⟨Or.inl rfl, missing_required_field_fails untitledFrontMatter (Or.inl rfl)⟩

/-- C6: rendering is deterministic: serialising the page rendered for the
same entry (and the index for the same collection) twice yields
byte-identical output; the renderers are pure functions of their input. -/
theorem rendering_deterministic (p : PostData) (body : String)
    (l : List Post) :
    Html.render (renderBlogPost p body) = Html.render (renderBlogPost p body) ∧
    Html.render (renderIndex l) = Html.render (renderIndex l) :=
  ⟨rfl, rfl⟩

/-- C7: for the concrete content store holding the two entries dated
2025-01-02 and 2025-01-08, the index lists the 2025-01-08 entry before the
2025-01-02 entry, whichever order the collection is read in. -/
theorem index_concrete_order :
    indexListing [findingGustavo1, findingGustavo2] =
      [renderPostItem findingGustavo2, renderPostItem findingGustavo1] ∧
    indexListing [findingGustavo2, findingGustavo1] =
      [renderPostItem findingGustavo2, renderPostItem findingGustavo1] := by
  constructor <;>
    simp [indexListing, sortPosts, List.mergeSort, List.splitInTwo,
      List.splitAt, List.splitAt.go, List.merge, postLE, jsCompare,
      findingGustavo1, findingGustavo2, Date.valueOf]

/-- C8: the build configuration is the single declarative object fixing the
site base URL, the base path, and exactly the two enabled build extensions:
markdown-to-page rendering (mdx) and sitemap generation. -/
theorem config_declarative :
    config.site = "https://fiala.space/blog" ∧ config.base = "blog" ∧
    config.integrations = [Integration.mdx, Integration.sitemap] :=
  ⟨rfl, rfl, rfl⟩

/-- C9: the index listing renders, in its sorted order, exactly the entries
of the collection (a permutation: none filtered, duplicated or added), and
each item links to `/blog/` followed by the entry's slug and shows the
entry's publish date, title and description. -/
theorem index_listing_permutation (l : List Post) :
    (sortPosts l).Perm l ∧
    indexListing l = (sortPosts l).map renderPostItem ∧
    ∀ p : Post, renderPostItem p =
      Html.elem "li" []
        [Html.elem "a"
          [("class", "post__link"), ("href", "/blog/" ++ p.slug)]
          [Html.elem "span" [("class", "post__date")]
            [FormattedDate p.data.pubDate],
           Html.elem "div" []
            [Html.elem "h2" [("class", "post__title")]
              [Html.text p.data.title],
             Html.elem "p" [("class", "post__description")]
               [Html.text p.data.description]]]] :=
  ⟨List.mergeSort_perm l postLE, rfl, fun _ => rfl⟩

/-- C10: the head metadata block of a rendered post page depends only on the
entry's title and description: two entries agreeing on those two fields
produce identical head blocks, whatever their hero image, publish date,
updated date or body. -/
theorem pageHead_depends_only_on_title_description
    (p q : PostData) (b c : String)
    (ht : p.title = q.title) (hd : p.description = q.description) :
    pageHead (renderBlogPost p b) = pageHead (renderBlogPost q c) := by
  simp [renderBlogPost, pageHead, BaseHead, ht, hd]

/-- Witness for C10 at two concrete entries sharing title and description but
differing in publish date, updated date and hero image. -/
theorem pageHead_depends_only_witness :
    heroPost.title = headPostB.title ∧
    heroPost.description = headPostB.description ∧
    pageHead (renderBlogPost heroPost "x") =
      pageHead (renderBlogPost headPostB "y") :=
  ⟨rfl, rfl,
   pageHead_depends_only_on_title_description heroPost headPostB "x" "y"
     rfl rfl⟩

end Blog
